import Mathlib

/-!
Shallow embedding of the Elejandria Libros sushi chef crawler
(`sushichef.py`) together with theorems checking the natural-language
specification of its traversal-and-assembly core.

Modelling conventions:

* Scrapy response objects are replaced by records holding exactly the data
  the CSS selectors of each callback extract; a selector `.get()` that can
  return `None` becomes an `Option`.
* The ricecooker node objects are mutable Python objects shared by
  reference, so the embedding carries an explicit heap: `CrawlState.topics`
  and `CrawlState.docs` list every `TopicNode` / `DocumentNode` object ever
  created, and `NodeRef` is an object reference (a heap index).  Mutations
  (`add_child`, `add_file`) update the heap in place.
* The module-level globals `NODE_TREE` and `NODE_COUNTERS` are further
  fields of `CrawlState`; Python dicts preserve insertion order, so
  `NODE_COUNTERS` is an insertion-ordered association list.
* Each spider callback becomes a function from its page record and bound
  keyword arguments to an updated state plus the list of yielded
  `scrapy.Request`s (as `Request` values recording the callback and its
  `cb_kwargs`).  The one statement that can raise (`None.replace` on a
  missing `h1.bordered-heading`) makes `parse_book` return `Except`.
-/

set_option linter.all false

/-- Test `isSubAt pat l`: true when `pat` is an initial segment of `l`
(one position of a Python substring scan). -/
def isSubAt : List Char → List Char → Bool
  | [], _ => true
  | _ :: _, [] => false
  | p :: ps, c :: cs => p == c && isSubAt ps cs

/-- Test `hasSub pat l`: `pat` occurs contiguously somewhere in `l`. -/
def hasSub (pat : List Char) : List Char → Bool
  | [] => isSubAt pat []
  | c :: cs => isSubAt pat (c :: cs) || hasSub pat cs

/-- The Python membership test `pat in s` on strings. -/
def containsSub (s pat : String) : Bool :=
  hasSub pat.toList s.toList

/-- Remove the first occurrence of `pat`, leaving later occurrences:
Python `s.replace(pat, "", 1)`, on character lists. -/
def replaceFirstAux (pat : List Char) : List Char → List Char
  | [] => []
  | c :: cs =>
    if isSubAt pat (c :: cs) then List.drop pat.length (c :: cs)
    else c :: replaceFirstAux pat cs

/-- Python `s.replace(pat, "", 1)`. -/
def replaceFirst (s pat : String) : String :=
  ⟨replaceFirstAux pat.toList s.toList⟩

/-- The `NODE_COUNTERS` update of `sushichef.py` lines 205-208: insert a
new title with count 1, or bump an existing title in place.  A Python dict
preserves insertion order, hence the association-list model. -/
def updateCounter : List (String × Nat) → String → List (String × Nat)
  | [], t => [(t, 1)]
  | (k, v) :: rest, t =>
    if k = t then (k, v + 1) :: rest else (k, v) :: updateCounter rest t

/-- Dict lookup: `NODE_COUNTERS[title]` / `title in NODE_COUNTERS`. -/
def lookupCounter : List (String × Nat) → String → Option Nat
  | [], _ => none
  | (k, v) :: rest, t => if k = t then some v else lookupCounter rest t

/-- Counter value of a title, zero when the title was never seen. -/
def lookupAsNat (c : List (String × Nat)) (t : String) : Nat :=
  (lookupCounter c t).getD 0

/-- A reference to a node object: an index into the corresponding heap
list of `CrawlState`. -/
inductive NodeRef
  | topicRef (i : Nat)
  | docRef (i : Nat)
  deriving DecidableEq, Repr

/-- From `ricecooker.classes.nodes.TopicNode`: the fields the chef sets.  The
title comes from a CSS `::text` selector and can therefore be `None`. -/
structure TopicNode where
  title : Option String
  source_id : String
  children : List NodeRef
  deriving DecidableEq, Repr

/-- Which ricecooker file class wraps the download URL:
`files.EPubFile` or `files.DocumentFile`. -/
inductive FileCls
  | epubFile
  | documentFile
  deriving DecidableEq, Repr

/-- From `ricecooker.classes.nodes.DocumentNode`: the fields the chef sets
(the license object is a fixed external constant and is omitted). -/
structure DocumentNode where
  source_id : String
  title : String
  author : Option String
  provider : String
  description : String
  thumbnail : Option String
  files : List (FileCls × String)
  deriving DecidableEq, Repr

/-- The whole mutable state of a crawl: the two module-level globals plus
the heap of node objects created so far. -/
structure CrawlState where
  node_tree : List Nat
  topics : List TopicNode
  docs : List DocumentNode
  counters : List (String × Nat)
  deriving DecidableEq, Repr

/-- A yielded `scrapy.Request`: which callback it targets and the
`cb_kwargs` bound to it. -/
inductive Request
  | categories (url : String) (node : Nat) (top_level : Bool)
  | category (url : String) (node : Nat)
  | collections (url : String) (node : Nat)
  | collection (url : String) (node : Nat)
  | book (url : String) (node : Nat) (source_tag : String)
  | download (url : String) (doc : Nat) (parent : Nat) (cls : FileCls)
  deriving DecidableEq, Repr

/-- An anchor element as seen by the index-page callbacks:
`attrib.get("class", "")`, `css("::text").get()`, `attrib["href"]`. -/
structure Link where
  cls : Option String
  text : Option String
  href : String
  deriving DecidableEq, Repr

/-- A book link on a category or collection page. -/
structure BookLink where
  href : String
  text : Option String
  deriving DecidableEq, Repr

/-- A download button on a book page: `a.download-link`. -/
structure DlButton where
  text : Option String
  href : String
  deriving DecidableEq, Repr

/-- What `parse_book` extracts from a book page. -/
structure BookPage where
  url : String
  h1Title : Option String
  authorText : Option String
  thumbnail : Option String
  paragraphs : List String
  downloadButtons : List DlButton
  deriving DecidableEq, Repr

/-- What `parse_download` extracts from a download-confirmation page. -/
structure DownloadPage where
  downloadHref : Option String
  deriving DecidableEq, Repr

/-- Python `node.add_child(...)` on the topic at heap index `i` (no-op on a
dangling reference, which never arises in the modelled runs). -/
def addChild (s : CrawlState) (i : Nat) (r : NodeRef) : CrawlState :=
  match s.topics.get? i with
  | none => s
  | some t => { s with topics := s.topics.set i { t with children := t.children ++ [r] } }

/-- Python `document_node.add_file(file_cls(url))` on the document at heap
index `i`. -/
def addFile (s : CrawlState) (i : Nat) (c : FileCls) (u : String) : CrawlState :=
  match s.docs.get? i with
  | none => s
  | some d => { s with docs := s.docs.set i { d with files := d.files ++ [(c, u)] } }

def CHANNEL_NAME : String := "Elejandria Libros"

/-- The skip test of `parse_categories`:
`"btn" in category_link.attrib.get("class", "")`. -/
def isBtnLink (l : Link) : Bool :=
  containsSub (l.cls.getD "") "btn"

/-- Callback `ElejandriaLibrosSpider.parse_categories`: for each non-button link
create a `TopicNode`, attach it under `node`, and yield a request — back to
`parse_categories` (with `top_level` defaulting to `False`) from the
top-level page, otherwise to `parse_category`. -/
def parse_categories (links : List Link) (nodeIdx : Nat) (top_level : Bool)
    (s : CrawlState) : CrawlState × List Request :=
  match links with
  | [] => (s, [])
  | link :: rest =>
    if isBtnLink link then
      parse_categories rest nodeIdx top_level s
    else
      let idx := s.topics.length
      let category_node : TopicNode :=
        { title := link.text, source_id := link.href, children := [] }
      let s1 := addChild { s with topics := s.topics ++ [category_node] }
        nodeIdx (NodeRef.topicRef idx)
      let req :=
        if top_level then Request.categories link.href idx false
        else Request.category link.href idx
      let pr := parse_categories rest nodeIdx top_level s1
      (pr.1, req :: pr.2)

/-- Callback `ElejandriaLibrosSpider.parse_category`: each book link yields a
`parse_book` request bound to this category node, tagged `"category"`. -/
def parse_category (links : List BookLink) (nodeIdx : Nat) (s : CrawlState) :
    CrawlState × List Request :=
  (s, links.map fun l => Request.book l.href nodeIdx "category")

/-- Callback `ElejandriaLibrosSpider.parse_collections`: each collection link
becomes a `TopicNode` child of the collections root and yields a
`parse_collection` request. -/
def parse_collections (links : List Link) (nodeIdx : Nat) (s : CrawlState) :
    CrawlState × List Request :=
  match links with
  | [] => (s, [])
  | link :: rest =>
    let idx := s.topics.length
    let collection_node : TopicNode :=
      { title := link.text, source_id := link.href, children := [] }
    let s1 := addChild { s with topics := s.topics ++ [collection_node] }
      nodeIdx (NodeRef.topicRef idx)
    let pr := parse_collections rest nodeIdx s1
    (pr.1, Request.collection link.href idx :: pr.2)

/-- Callback `ElejandriaLibrosSpider.parse_collection`: each book link yields a
`parse_book` request bound to this collection node, tagged
`"collection"`. -/
def parse_collection (links : List BookLink) (nodeIdx : Nat) (s : CrawlState) :
    CrawlState × List Request :=
  (s, links.map fun l => Request.book l.href nodeIdx "collection")

/-- The `versions` dict built from the download buttons of a book page
(`sushichef.py` lines 221-228); a later button with the same format
overwrites the earlier URL, as in a Python dict. -/
structure Versions where
  ePub : Option String
  pdf : Option String
  deriving DecidableEq, Repr

def collectVersions (buttons : List DlButton) : Versions :=
  buttons.foldl
    (fun v b =>
      let button_text := b.text.getD ""
      if containsSub button_text "ePub" then { v with ePub := some b.href }
      else if containsSub button_text "PDF" then { v with pdf := some b.href }
      else v)
    { ePub := none, pdf := none }

/-- The format-preference ladder of `sushichef.py` lines 230-241:
prefer ePub, fall back to PDF, else the book is dropped. -/
def selectVersion (v : Versions) : Option (FileCls × String) :=
  match v.ePub with
  | some u => some (FileCls.epubFile, u)
  | none =>
    match v.pdf with
    | some u => some (FileCls.documentFile, u)
    | none => none

/-- The only Python exception the modelled callbacks can raise:
`None.replace(...)` when `h1.bordered-heading` is absent. -/
inductive PyError
  | attributeError
  deriving DecidableEq, Repr

/-- The book title a page yields: the `h1` text with the first
`"Libro "` removed; `none` when the heading is missing. -/
def titleOf (page : BookPage) : Option String :=
  page.h1Title.map (fun raw => replaceFirst raw "Libro ")

/-- The `DocumentNode` literal of `sushichef.py` lines 210-219; `cnt` is
the counter value just written for this title. -/
def mkDocumentNode (source_tag : String) (cnt : Nat) (page : BookPage)
    (book_title : String) : DocumentNode :=
  { source_id := source_tag ++ "-" ++ toString cnt ++ "-" ++ page.url
    title := book_title
    author := page.authorText
    provider := CHANNEL_NAME
    description := String.intercalate "\n\n" page.paragraphs
    thumbnail := page.thumbnail
    files := [] }

/-- Callback `ElejandriaLibrosSpider.parse_book`.  Missing `h1` heading raises
`AttributeError` before anything is mutated.  Otherwise the counter for
the title is bumped, a fresh `DocumentNode` object is created (it exists
even when the book is then dropped for lack of formats), and either
nothing is yielded (no ePub/PDF button: `logger.error` and `return`) or a
`parse_download` request carrying the new node and the parent. -/
def parse_book (page : BookPage) (nodeIdx : Nat) (source_tag : String)
    (s : CrawlState) : Except PyError (CrawlState × List Request) :=
  match page.h1Title with
  | none => Except.error PyError.attributeError
  | some raw =>
    let book_title := replaceFirst raw "Libro "
    let counters := updateCounter s.counters book_title
    let cnt := lookupAsNat counters book_title
    let document_node := mkDocumentNode source_tag cnt page book_title
    let docIdx := s.docs.length
    let s1 : CrawlState := { s with counters := counters, docs := s.docs ++ [document_node] }
    match selectVersion (collectVersions page.downloadButtons) with
    | none => Except.ok (s1, [])
    | some (file_cls, url) =>
      Except.ok (s1, [Request.download url docIdx nodeIdx file_cls])

/-- Callback `ElejandriaLibrosSpider.parse_download`: if the confirmation page has
a download link (`if not url` also treats `""` as absent) add the file to
the document node; then — unconditionally — attach the document node to
the parent. -/
def parse_download (page : DownloadPage) (docIdx parentIdx : Nat)
    (file_cls : FileCls) (s : CrawlState) : CrawlState :=
  let s1 :=
    match page.downloadHref with
    | none => s
    | some url => if url = "" then s else addFile s docIdx file_cls url
  addChild s1 parentIdx (NodeRef.docRef docIdx)

/-- Callback `ElejandriaLibrosSpider.start_requests`: create the two roots, append
them to `NODE_TREE`, and request the two index pages. -/
def start_requests : CrawlState × List Request :=
  let collections_node : TopicNode :=
    { title := some "Libros organizados por colección", source_id := "colecciones", children := [] }
  let categories_node : TopicNode :=
    { title := some "Libros organizados por categoria", source_id := "categorias", children := [] }
  let s : CrawlState :=
    { node_tree := [0, 1]
      topics := [collections_node, categories_node]
      docs := []
      counters := [] }
  (s, [Request.categories "https://www.elejandria.com/categorias" 1 true,
       Request.collections "https://www.elejandria.com/colecciones" 0])

/-- One warning line of `ElejandriaLibrosChef.consistency`. -/
def warnMsg (book : String) (count : Nat) : String :=
  book ++ " appears " ++ toString count ++ " times"

/-- Method `ElejandriaLibrosChef.consistency`: walk `NODE_COUNTERS` in insertion
order, warn on every count above 2, and raise `AssertionError` (modelled
as the `true` flag, stopping the walk) at the first count above 8. -/
def consistency : List (String × Nat) → List String × Bool
  | [] => ([], false)
  | (book, count) :: rest =>
    let ws := if count > 2 then [warnMsg book count] else []
    if count > 8 then (ws, true)
    else
      let r := consistency rest
      (ws ++ r.1, r.2)

/-- State after a callback that may raise: on an exception Scrapy drops
the callback and the crawl state is whatever it was before. -/
def exceptState (r : Except PyError (CrawlState × List Request))
    (fallback : CrawlState) : CrawlState :=
  match r with
  | Except.ok (s, _) => s
  | Except.error _ => fallback

/-- Requests yielded by a callback that may raise. -/
def exceptReqs (r : Except PyError (CrawlState × List Request)) : List Request :=
  match r with
  | Except.ok (_, reqs) => reqs
  | Except.error _ => []

/-- One book-page response delivered to `parse_book`, with its bound
`cb_kwargs` (parent node and source tag). -/
structure BookVisit where
  page : BookPage
  node : Nat
  tag : String
  deriving DecidableEq, Repr

/-- Process a sequence of book-page responses in arrival order. -/
def runBooks : List BookVisit → CrawlState → CrawlState
  | [], s => s
  | v :: vs, s => runBooks vs (exceptState (parse_book v.page v.node v.tag s) s)

/-- How many of the visits carry a page whose (stripped) title is `t`. -/
def countTitle (vs : List BookVisit) (t : String) : Nat :=
  vs.countP (fun v => titleOf v.page == some t)

def emptyState : CrawlState :=
  { node_tree := [], topics := [], docs := [], counters := [] }

/-- Does this reference point at a document object titled `t`? -/
def refIsDocTitled (s : CrawlState) (t : String) : NodeRef → Bool
  | NodeRef.docRef i =>
    match s.docs.get? i with
    | some d => d.title == t
    | none => false
  | NodeRef.topicRef _ => false

/-- The number of distinct parent topics currently holding a document
titled `t` as a child. -/
def parentsHoldingTitle (s : CrawlState) (t : String) : Nat :=
  (s.topics.filter (fun tn => tn.children.any (refIsDocTitled s t))).length

/-- A request that re-enters category-index parsing below the top level. -/
def isSubCatRequest : Request → Bool
  | Request.categories _ _ tl => !tl
  | _ => false

/-- A request for book-list parsing of a category page. -/
def isBookListRequest : Request → Bool
  | Request.category _ _ => true
  | _ => false

/-- The portion of `NODE_COUNTERS` that the `consistency` walk actually
visits: everything up to and including the first count above 8 (the
`AssertionError` stops the loop there). -/
def scanUntilFatal : List (String × Nat) → List (String × Nat)
  | [] => []
  | p :: rest => if p.2 > 8 then [p] else p :: scanUntilFatal rest

/-! Concrete crawl fragments used to evaluate the embedding on explicit
inputs. -/

/-- A book page whose `h1.bordered-heading` is missing: the CSS `.get()`
returns `None`. -/
def c9page : BookPage :=
  { url := "u9", h1Title := none, authorText := some "A", thumbnail := none,
    paragraphs := [], downloadButtons := [⟨some "Descargar ePub", "e"⟩] }

/-- A book page offering only the PDF format. -/
def c6pageA : BookPage :=
  { url := "ua", h1Title := some "Libro A", authorText := none, thumbnail := none,
    paragraphs := [], downloadButtons := [⟨some "Descargar PDF", "updf"⟩] }

/-- A book page offering both ePub and PDF. -/
def c6pageB : BookPage :=
  { url := "ub", h1Title := some "Libro B", authorText := none, thumbnail := none,
    paragraphs := [],
    downloadButtons := [⟨some "Descargar PDF", "updf2"⟩, ⟨some "Descargar ePub", "uepub"⟩] }

/-- A book page with an ePub button, used for allocation witnesses. -/
def c1wPage : BookPage :=
  { url := "uw", h1Title := some "Libro W", authorText := some "A", thumbnail := none,
    paragraphs := ["parr"], downloadButtons := [⟨some "Descargar ePub", "ew"⟩] }

/-- A book page with no download buttons at all. -/
def c3page : BookPage :=
  { url := "u3", h1Title := some "Libro X", authorText := none, thumbnail := none,
    paragraphs := [], downloadButtons := [] }

/-- A state holding one category topic with no children yet. -/
def c3s0 : CrawlState :=
  { node_tree := [], topics := [⟨some "Cat", "cat", []⟩], docs := [], counters := [] }

/-- A state where one pending (file-less) document object exists and its
parent topic has no children yet: exactly the situation between
`parse_book` and `parse_download`. -/
def c2state : CrawlState :=
  { node_tree := []
    topics := [⟨some "Cat", "cat", []⟩]
    docs := [⟨"category-1-u", "X", none, CHANNEL_NAME, "", none, []⟩]
    counters := [("X", 1)] }

/-- A download-confirmation page with no `a.download-link` anchor. -/
def c2dl : DownloadPage := ⟨none⟩

/-- The same book page delivered twice, once per taxonomy. -/
def c5page : BookPage :=
  { url := "u", h1Title := some "Libro B", authorText := none, thumbnail := none,
    paragraphs := [], downloadButtons := [⟨some "Descargar ePub", "e"⟩] }

def c5v1 : BookVisit := ⟨c5page, 0, "category"⟩

def c5v2 : BookVisit := ⟨c5page, 1, "collection"⟩

/-- A two-taxonomy crawl fragment in which the same book URL `u` is
reached once through the category branch and once through a collection:
top-level category page, sub-category page, collections page, the two
book lists, the two book-page visits, the two confirmation pages. -/
def c1s0 : CrawlState := start_requests.1

def c1step1 : CrawlState × List Request :=
  parse_categories [⟨none, some "Literatura", "catA"⟩] 1 true c1s0

def c1step2 : CrawlState × List Request :=
  parse_categories [⟨none, some "Novela", "catB"⟩] 2 false c1step1.1

def c1step3 : CrawlState × List Request :=
  parse_collections [⟨none, some "Clasicos", "collA"⟩] 0 c1step2.1

def c1step4 : CrawlState × List Request :=
  parse_category [⟨"u", some "Libro B"⟩] 3 c1step3.1

def c1step5 : CrawlState × List Request :=
  parse_collection [⟨"u", some "Libro B"⟩] 4 c1step4.1

def c1bookPage : BookPage :=
  { url := "u", h1Title := some "Libro B", authorText := some "A", thumbnail := none,
    paragraphs := [], downloadButtons := [⟨some "Descargar ePub", "e"⟩] }

def c1step6 : CrawlState :=
  exceptState (parse_book c1bookPage 3 "category" c1step5.1) c1step5.1

def c1step7 : CrawlState :=
  exceptState (parse_book c1bookPage 4 "collection" c1step6) c1step6

def c1dl : DownloadPage := ⟨some "final.epub"⟩

def c1final : CrawlState :=
  parse_download c1dl 1 4 FileCls.epubFile
    (parse_download c1dl 0 3 FileCls.epubFile c1step7)

/-- Links for the category-depth experiment. -/
def c7link1 : Link := ⟨none, some "Literatura", "cat1"⟩

def c7link2 : Link := ⟨none, some "Novela", "cat2"⟩

/-! Helper lemmas about the counter dictionary and `parse_book`. -/

theorem lookup_updateCounter_self (c : List (String × Nat)) (t : String) :
    lookupCounter (updateCounter c t) t = some (lookupAsNat c t + 1) := by
  induction c with
  | nil => simp [updateCounter, lookupCounter, lookupAsNat]
  | cons kv rest ih =>
    obtain ⟨k, v⟩ := kv
    by_cases h : k = t
    · subst h
      simp [updateCounter, lookupCounter, lookupAsNat]
    · simp [updateCounter, lookupCounter, lookupAsNat, h, ih]

theorem lookup_updateCounter_other (c : List (String × Nat)) (t t' : String)
    (h : t' ≠ t) : lookupCounter (updateCounter c t) t' = lookupCounter c t' := by
  induction c with
  | nil =>
    have h' : ¬ (t = t') := fun he => h he.symm
    simp [updateCounter, lookupCounter, h']
  | cons kv rest ih =>
    obtain ⟨k, v⟩ := kv
    by_cases hk : k = t
    · subst hk
      have h' : ¬ (k = t') := fun he => h (he.symm)
      simp [updateCounter, lookupCounter, h']
    · by_cases hk' : k = t'
      · subst hk'
        simp [updateCounter, lookupCounter, hk]
      · simp [updateCounter, lookupCounter, hk, hk', ih]

/-- Evaluation of `parse_book` on a page whose title heading is present:
the counter for the stripped title is bumped, a fresh `DocumentNode` is
appended to the heap, and a download request is yielded exactly when a
format was selected. -/
theorem parse_book_ok (page : BookPage) (n : Nat) (tag : String) (s : CrawlState)
    (raw : String) (hp : page.h1Title = some raw) :
    parse_book page n tag s = Except.ok
      ({ s with
          counters := updateCounter s.counters (replaceFirst raw "Libro ")
          docs := s.docs ++ [mkDocumentNode tag
            (lookupAsNat (updateCounter s.counters (replaceFirst raw "Libro "))
              (replaceFirst raw "Libro ")) page (replaceFirst raw "Libro ")] },
        match selectVersion (collectVersions page.downloadButtons) with
        | none => []
        | some (fc, u) => [Request.download u s.docs.length n fc]) := by
  rcases hv : selectVersion (collectVersions page.downloadButtons) with _ | ⟨fc, u⟩ <;>
    simp [parse_book, hp, hv]

/-- The counter field after a `parse_book` callback (including the case
where the callback raised and the state is untouched). -/
theorem parse_book_counters (page : BookPage) (n : Nat) (tag : String)
    (s : CrawlState) :
    (exceptState (parse_book page n tag s) s).counters =
      match titleOf page with
      | some bt => updateCounter s.counters bt
      | none => s.counters := by
  rcases hp : page.h1Title with _ | raw
  · simp [parse_book, hp, exceptState, titleOf]
  · rw [parse_book_ok page n tag s raw hp]
    simp [exceptState, titleOf, hp]

theorem addChild_topics_len (s : CrawlState) (i : Nat) (r : NodeRef) :
    (addChild s i r).topics.length = s.topics.length := by
  unfold addChild
  cases h : s.topics.get? i <;> simp

theorem consistency_snd (cs : List (String × Nat)) :
    (consistency cs).2 = cs.any (fun p => decide (8 < p.2)) := by
  induction cs with
  | nil => simp [consistency]
  | cons p rest ih =>
    obtain ⟨book, count⟩ := p
    by_cases h8 : count > 8
    · simp [consistency, h8]
    · simp [consistency, h8, ih]

theorem consistency_fst (cs : List (String × Nat)) :
    (consistency cs).1 =
      ((scanUntilFatal cs).filter (fun p => decide (2 < p.2))).map
        (fun p => warnMsg p.1 p.2) := by
  induction cs with
  | nil => simp [consistency, scanUntilFatal]
  | cons p rest ih =>
    obtain ⟨book, count⟩ := p
    by_cases h8 : count > 8
    · have h2 : (2 : Nat) < count := by omega
      simp [consistency, scanUntilFatal, h8, h2]
    · by_cases h2 : (2 : Nat) < count
      · simp [consistency, scanUntilFatal, h8, h2, ih]
      · simp [consistency, scanUntilFatal, h8, h2, ih]

/-- C4 (amended): the post-crawl check aborts (raises `AssertionError`)
exactly when some recorded count exceeds 8, and the warnings it emits are
exactly those for counts above 2 among the entries the walk reaches — the
entries up to and including the first fatal one, not all of them. -/
theorem c4_consistency_behaviour (cs : List (String × Nat)) :
    ((consistency cs).2 = true ↔ ∃ p ∈ cs, 8 < p.2) ∧
    (consistency cs).1 =
      ((scanUntilFatal cs).filter (fun p => decide (2 < p.2))).map
        (fun p => warnMsg p.1 p.2) := by
  refine ⟨?_, consistency_fst cs⟩
  rw [consistency_snd]
  simp [List.any_eq_true]

/-- C4 counterexample: with counters `a ↦ 9, b ↦ 3` the run aborts, yet
`b` — whose count exceeds 2 — gets no warning, because the fatal entry
for `a` stops the walk first.  The claim "emits a warning for every
document whose count exceeds 2" fails here. -/
theorem c4_missing_warning_cex :
    (2 : Nat) < 3 ∧
    (consistency [("a", 9), ("b", 3)]).2 = true ∧
    (consistency [("a", 9), ("b", 3)]).1 = ["a appears 9 times"] ∧
    warnMsg "b" 3 ∉ (consistency [("a", 9), ("b", 3)]).1 := by
  decide

/-- C9 (amended): `parse_book` lets an `AttributeError` escape exactly
when the page lacks the `h1.bordered-heading` title; a missing author
link, thumbnail or description region is tolerated (the node fields just
become `None`/empty), and the missing-format case returns normally. -/
theorem c9_error_iff_missing_title (page : BookPage) (n : Nat) (tag : String)
    (s : CrawlState) :
    parse_book page n tag s = Except.error PyError.attributeError ↔
      page.h1Title = none := by
  rcases hp : page.h1Title with _ | raw
  · simp [parse_book, hp]
  · rw [parse_book_ok page n tag s raw hp]
    simp

/-- C9 counterexample: a book page with no title heading makes
`parse_book` raise `AttributeError` — an exception does propagate out of
a handler, contradicting the claim as stated. -/
theorem c9_exception_escapes_cex :
    parse_book c9page 0 "category" emptyState =
      Except.error PyError.attributeError := rfl

/-- C6: the format-preference rule of `parse_book`.  If the page's
buttons yield no ePub entry but a PDF entry, the yielded download request
uses `files.DocumentFile` on the PDF URL; whenever an ePub entry exists
the request uses `files.EPubFile` on the ePub URL, even if a PDF is also
offered. -/
theorem c6_format_selection (page : BookPage) (n : Nat) (tag : String)
    (s : CrawlState) (raw u : String) (ht : page.h1Title = some raw) :
    ((collectVersions page.downloadButtons).ePub = none →
      (collectVersions page.downloadButtons).pdf = some u →
      ∃ s1, parse_book page n tag s =
        Except.ok (s1, [Request.download u s.docs.length n FileCls.documentFile])) ∧
    ((collectVersions page.downloadButtons).ePub = some u →
      ∃ s1, parse_book page n tag s =
        Except.ok (s1, [Request.download u s.docs.length n FileCls.epubFile])) := by
  constructor
  · intro he hp
    refine ⟨exceptState (parse_book page n tag s) s, ?_⟩
    rw [parse_book_ok page n tag s raw ht]
    simp [exceptState, selectVersion, he, hp]
  · intro he
    refine ⟨exceptState (parse_book page n tag s) s, ?_⟩
    rw [parse_book_ok page n tag s raw ht]
    simp [exceptState, selectVersion, he]

/-- Witness for C6 at two explicit pages: a PDF-only page selects the
PDF/DocumentFile pair, a page offering both selects the
ePub/EPubFile pair. -/
theorem c6_format_selection_w :
    (∃ s1, parse_book c6pageA 0 "category" emptyState =
      Except.ok (s1, [Request.download "updf" 0 0 FileCls.documentFile])) ∧
    (∃ s1, parse_book c6pageB 0 "category" emptyState =
      Except.ok (s1, [Request.download "uepub" 0 0 FileCls.epubFile])) :=
  ⟨(c6_format_selection c6pageA 0 "category" emptyState "Libro A" "updf" rfl).1
      (by decide) (by decide),
   (c6_format_selection c6pageB 0 "category" emptyState "Libro B" "uepub" rfl).2
      (by decide)⟩

/-- C8: button-styled links are excluded by the structural `"btn" in
class` test alone — running `parse_categories` on a link list is the same
as running it on the list with every button-styled link removed, whatever
position those buttons occupy. -/
theorem c8_button_links_filtered (links : List Link) (nodeIdx : Nat)
    (top_level : Bool) (s : CrawlState) :
    parse_categories links nodeIdx top_level s =
      parse_categories (links.filter (fun l => !isBtnLink l)) nodeIdx top_level s := by
  induction links generalizing s with
  | nil => rfl
  | cons l rest ih =>
    by_cases hb : isBtnLink l = true
    · simp [parse_categories, hb, List.filter_cons, ih]
    · simp [parse_categories, hb, List.filter_cons, ih]

theorem parse_categories_topics_len (links : List Link) (nodeIdx : Nat)
    (top_level : Bool) (s : CrawlState) :
    (parse_categories links nodeIdx top_level s).1.topics.length =
      s.topics.length + (links.filter (fun l => !isBtnLink l)).length := by
  induction links generalizing s with
  | nil => simp [parse_categories]
  | cons l rest ih =>
    by_cases hb : isBtnLink l = true
    · simp [parse_categories, hb, List.filter_cons, ih]
    · simp only [parse_categories, hb, Bool.false_eq_true, if_false, List.filter_cons,
        Bool.not_false, if_true, ih, addChild_topics_len]
      simp [List.filter_cons, hb]
      omega

theorem parse_categories_all_subcat (links : List Link) (nodeIdx : Nat)
    (s : CrawlState) :
    (parse_categories links nodeIdx true s).2.all isSubCatRequest = true := by
  induction links generalizing s with
  | nil => rfl
  | cons l rest ih =>
    by_cases hb : isBtnLink l = true
    · simp [parse_categories, hb, ih]
    · simp [parse_categories, hb, ih, isSubCatRequest]

theorem parse_categories_all_booklist (links : List Link) (nodeIdx : Nat)
    (s : CrawlState) :
    (parse_categories links nodeIdx false s).2.all isBookListRequest = true := by
  induction links generalizing s with
  | nil => rfl
  | cons l rest ih =>
    by_cases hb : isBtnLink l = true
    · simp [parse_categories, hb, ih]
    · simp [parse_categories, hb, ih, isBookListRequest]

/-- C7 (amended): on the top-level category index every kept link becomes
a new `TopicNode` child and is dispatched back to category-index parsing
with the top-level flag off — not in the same mode — and any category
index parsed with the flag off dispatches its links to book-list parsing
(`parse_category`).  Category indexes are therefore walked exactly two
levels deep, not to arbitrary nesting depth. -/
theorem c7_two_level_dispatch (links : List Link) (nodeIdx : Nat) (s : CrawlState) :
    (parse_categories links nodeIdx true s).2.all isSubCatRequest = true ∧
    (parse_categories links nodeIdx false s).2.all isBookListRequest = true ∧
    (parse_categories links nodeIdx true s).1.topics.length =
      s.topics.length + (links.filter (fun l => !isBtnLink l)).length :=
  ⟨parse_categories_all_subcat links nodeIdx s,
   parse_categories_all_booklist links nodeIdx s,
   parse_categories_topics_len links nodeIdx true s⟩

/-- C7 counterexample: from the top-level page the emitted request turns
the top-level flag off (so the child is *not* walked in the same mode),
and at the next level the category link is dispatched to book-list
parsing — a third level of category indexes would never be walked as a
category index. -/
theorem c7_depth_cex :
    (parse_categories [c7link1] 1 true c1s0).2 =
      [Request.categories "cat1" 2 false] ∧
    (parse_categories [c7link2] 2 false (parse_categories [c7link1] 1 true c1s0).1).2 =
      [Request.category "cat2" 3] ∧
    Request.categories "cat1" 2 false ≠ Request.categories "cat1" 2 true := by
  decide

theorem runBooks_lookupAsNat (vs : List BookVisit) (s : CrawlState) (t : String) :
    lookupAsNat (runBooks vs s).counters t = lookupAsNat s.counters t + countTitle vs t := by
  induction vs generalizing s with
  | nil => simp [runBooks, countTitle]
  | cons v vs ih =>
    simp only [runBooks]
    rw [ih]
    have hc := parse_book_counters v.page v.node v.tag s
    rcases hp : titleOf v.page with _ | bt
    · rw [hp] at hc
      rw [hc]
      simp [countTitle, List.countP_cons, hp]
    · rw [hp] at hc
      rw [hc]
      by_cases hbt : bt = t
      · subst hbt
        have h1 : lookupAsNat (updateCounter s.counters bt) bt =
            lookupAsNat s.counters bt + 1 := by
          rw [lookupAsNat, lookup_updateCounter_self]
          rfl
        rw [h1]
        simp only [countTitle, List.countP_cons, hp]
        simp
        omega
      · have h1 : lookupAsNat (updateCounter s.counters bt) t =
            lookupAsNat s.counters t := by
          rw [lookupAsNat, lookup_updateCounter_other _ _ _ (Ne.symm hbt)]
          rfl
        rw [h1]
        simp [countTitle, List.countP_cons, hp, hbt]

/-- C3 (amended): starting from a fresh crawl, the counter recorded for a
title equals the number of book-page *visits* bearing that title — the
increment happens on every visit, before any download format is checked
and before any attachment, so it is a count of visits, not of the parents
currently holding a document. -/
theorem c3_count_equals_visits (vs : List BookVisit) (t : String) :
    lookupAsNat (runBooks vs emptyState).counters t = countTitle vs t := by
  have h := runBooks_lookupAsNat vs emptyState t
  simpa [emptyState, lookupAsNat, lookupCounter] using h

/-- C3 counterexample: one visit to a book page with no download buttons
bumps the counter for its title to 1, yet no parent holds any document
with that title — the recorded count differs from the number of holding
parents. -/
theorem c3_count_exceeds_parents_cex :
    lookupAsNat (exceptState (parse_book c3page 0 "category" c3s0) c3s0).counters "X" = 1 ∧
    parentsHoldingTitle (exceptState (parse_book c3page 0 "category" c3s0) c3s0) "X" = 0 ∧
    lookupAsNat (exceptState (parse_book c3page 0 "category" c3s0) c3s0).counters "X" ≠
      parentsHoldingTitle (exceptState (parse_book c3page 0 "category" c3s0) c3s0) "X" := by
  decide

/-- C5 (amended): the final occurrence counts are independent of the
order in which the book-page responses arrive — any permutation of the
visit sequence yields the same counter for every title.  (The document
source ids are **not** order-independent; see the counterexample.) -/
theorem c5_counts_order_independent (vs1 vs2 : List BookVisit) (s : CrawlState)
    (h : vs1.Perm vs2) (t : String) :
    lookupAsNat (runBooks vs1 s).counters t =
      lookupAsNat (runBooks vs2 s).counters t := by
  rw [runBooks_lookupAsNat, runBooks_lookupAsNat, countTitle, countTitle,
    h.countP_eq]

/-- Witness for C5 at a concrete pair of interleavings of the same two
visits. -/
theorem c5_counts_order_independent_w :
    lookupAsNat (runBooks [c5v1, c5v2] emptyState).counters "B" =
      lookupAsNat (runBooks [c5v2, c5v1] emptyState).counters "B" :=
  c5_counts_order_independent [c5v1, c5v2] [c5v2, c5v1] emptyState
    (List.Perm.swap c5v2 c5v1 []) "B"

/-- C5 counterexample: the two arrival orders of the same two visits to
book URL `u` produce different document source ids — the id embeds the
counter value at arrival time, so re-running with a different concurrent
response order changes the canonical keys. -/
theorem c5_source_ids_order_dependent_cex :
    ((runBooks [c5v1, c5v2] emptyState).docs.map (fun d => d.source_id)) =
      ["category-1-u", "collection-2-u"] ∧
    ((runBooks [c5v2, c5v1] emptyState).docs.map (fun d => d.source_id)) =
      ["collection-1-u", "category-2-u"] ∧
    "category-1-u" ∉ ((runBooks [c5v2, c5v1] emptyState).docs.map (fun d => d.source_id)) := by
  decide

/-- C10: every book-page visit that finds the title heading bumps the
counter keyed by the *stripped display title* (the URL plays no role in
the key) by exactly one, leaves every other key untouched, and does so
whatever download buttons the page offers — the increment precedes the
format check, so discarded books are counted too. -/
theorem c10_counter_increment (page : BookPage) (n : Nat) (tag : String)
    (s : CrawlState) (bt : String) (h : titleOf page = some bt) :
    ∃ s1 reqs, parse_book page n tag s = Except.ok (s1, reqs) ∧
      s1.counters = updateCounter s.counters bt ∧
      lookupCounter s1.counters bt = some (lookupAsNat s.counters bt + 1) ∧
      ∀ t, t ≠ bt → lookupCounter s1.counters t = lookupCounter s.counters t := by
  rcases hp : page.h1Title with _ | raw
  · simp [titleOf, hp] at h
  · have hbt : replaceFirst raw "Libro " = bt := by simpa [titleOf, hp] using h
    subst hbt
    refine ⟨_, _, parse_book_ok page n tag s raw hp, rfl, ?_, ?_⟩
    · exact lookup_updateCounter_self _ _
    · exact fun t ht => lookup_updateCounter_other _ _ t ht

/-- Witness for C10 at a page with *no* download buttons: the visit is
discarded (no request is yielded), yet the counter for its title was
still incremented. -/
theorem c10_counter_increment_w :
    ∃ s1 reqs, parse_book c3page 0 "category" emptyState = Except.ok (s1, reqs) ∧
      s1.counters = updateCounter emptyState.counters "X" ∧
      lookupCounter s1.counters "X" = some (lookupAsNat emptyState.counters "X" + 1) ∧
      ∀ t, t ≠ "X" → lookupCounter s1.counters t = lookupCounter emptyState.counters t :=
  c10_counter_increment c3page 0 "category" emptyState "X" (by decide)

/-- C1 (amended): there is no deduplication registry — every successful
`parse_book` visit appends a brand-new `DocumentNode` object to the heap,
whose source id embeds the path-origin tag and the visit count for its
title, and attaches nothing itself; documents reachable from both roots
therefore get one fresh instance per reaching path. -/
theorem c1_fresh_document_per_visit (page : BookPage) (n : Nat) (tag : String)
    (s s1 : CrawlState) (reqs : List Request)
    (h : parse_book page n tag s = Except.ok (s1, reqs)) :
    ∃ bt, titleOf page = some bt ∧
      s1.docs = s.docs ++ [mkDocumentNode tag (lookupAsNat s.counters bt + 1) page bt] ∧
      s1.topics = s.topics := by
  rcases hp : page.h1Title with _ | raw
  · simp [parse_book, hp] at h
  · rw [parse_book_ok page n tag s raw hp] at h
    obtain ⟨hs, hr⟩ := Prod.mk.inj (Except.ok.inj h).symm
    refine ⟨replaceFirst raw "Libro ", by simp [titleOf, hp], ?_, ?_⟩
    · have hcnt : lookupAsNat (updateCounter s.counters (replaceFirst raw "Libro "))
          (replaceFirst raw "Libro ") =
          lookupAsNat s.counters (replaceFirst raw "Libro ") + 1 := by
        rw [lookupAsNat, lookup_updateCounter_self]
        rfl
      rw [hs]
      rw [hcnt]
    · rw [hs]

/-- Witness for C1 at a concrete successful visit. -/
theorem c1_fresh_document_per_visit_w :
    ∃ bt, titleOf c1wPage = some bt ∧
      (exceptState (parse_book c1wPage 0 "category" emptyState) emptyState).docs =
        emptyState.docs ++
          [mkDocumentNode "category" (lookupAsNat emptyState.counters bt + 1) c1wPage bt] ∧
      (exceptState (parse_book c1wPage 0 "category" emptyState) emptyState).topics =
        emptyState.topics :=
  c1_fresh_document_per_visit c1wPage 0 "category" emptyState
    (exceptState (parse_book c1wPage 0 "category" emptyState) emptyState)
    (exceptReqs (parse_book c1wPage 0 "category" emptyState)) (by rfl)

/-- C1 counterexample: a crawl fragment in which the same book URL `u` is
reachable from the category root and from the collections root ends with
*two* `DocumentNode` instances — one per path, with different source ids —
and each parent attached a different instance, refuting "exactly one
DocumentNode instance exists ... every traversal path ... attaches that
same instance". -/
theorem c1_two_instances_cex :
    c1final.docs.length = 2 ∧
    ¬ c1final.docs.length = 1 ∧
    (c1final.docs.map fun d => d.source_id) = ["category-1-u", "collection-2-u"] ∧
    (c1final.topics.get? 3).map (fun t => t.children) = some [NodeRef.docRef 0] ∧
    (c1final.topics.get? 4).map (fun t => t.children) = some [NodeRef.docRef 1] := by
  decide

/-- C2 at its failing input: when the download-confirmation page yields
no locator, `parse_download` logs the error but still attaches the
document node — the parent's children list gains the node while its
`files` list is still empty, contradicting "the node is discarded and
remains unattached to every parent". -/
theorem c2_unconfirmed_node_attached :
    (parse_download c2dl 0 0 FileCls.epubFile c2state).topics =
      [⟨some "Cat", "cat", [NodeRef.docRef 0]⟩] ∧
    (parse_download c2dl 0 0 FileCls.epubFile c2state).docs =
      [⟨"category-1-u", "X", none, CHANNEL_NAME, "", none, []⟩] := by
  decide
